import Mathlib

/-!
Shallow embedding of the order-fulfillment core of the eqvimech repository
(src/models.py, src/database.py, src/streamlit_app.py).  Database tables are
modelled as lists of rows held in a `DB` record; each mutating code path is a
pure function `DB → ... → DB × result`.  Floats in the source (prices) are
modelled as `Int`; none of the verified properties depends on float rounding.
Timestamps are a logical clock passed in as `Nat`.
-/

namespace Eqvimech

/-- Row of `machine_families` (models.py, class MachineFamily). -/
structure MachineFamily where
  id : Nat
  name : String
  isProduct : Bool
  deriving Repr, DecidableEq

/-- Row of `accessories` (models.py, class Accessory). -/
structure Accessory where
  id : Nat
  name : String
  accessoryId : String
  categoryTag : String
  unitOfMeasure : String
  minStockLevel : Int
  currentStockLevel : Int
  pricePerUnit : Int
  deriving Repr, DecidableEq

/-- Row of `family_accessories` (models.py, class FamilyAccessory): links a
machine family to one of its default accessories. -/
structure FamilyAccessory where
  id : Nat
  machineFamilyId : Nat
  accessoryId : Nat
  defaultQuantity : Int
  isVariable : Bool
  variablePlaceholder : Option String
  isRequiredForDispatch : Bool
  deriving Repr, DecidableEq

/-- Row of `orders` (models.py, class Order).  The field `idPref` models the
source column `order_id_prefix` (default "EQV-ORD"). -/
structure Order where
  id : Nat
  customerId : Nat
  orderNumber : Nat
  idPref : String
  totalAmount : Int
  status : String
  deriving Repr, DecidableEq

/-- Row of `order_items` (models.py, class OrderItem). -/
structure OrderItem where
  id : Nat
  orderId : Nat
  machineFamilyId : Nat
  itemDescription : Option String
  quantity : Int
  unitPrice : Int
  totalPrice : Int
  deriving Repr, DecidableEq

/-- Row of `order_item_accessories` (models.py, class OrderItemAccessory).
The source model has no per-row `is_variable` or `current_status` column;
completion of a document accessory is recorded in the free-text `notes`
column (the UI compares it with the literal "Attached"). -/
structure OrderItemAccessory where
  id : Nat
  orderItemId : Nat
  accessoryId : Nat
  quantity : Int
  unitPrice : Int
  isRequiredForDispatch : Bool
  notes : Option String
  deriving Repr, DecidableEq

/-- Row of `production_process_steps` (models.py, class ProductionProcessStep). -/
structure ProductionProcessStep where
  id : Nat
  stepName : String
  orderIndex : Int
  isDispatchStep : Bool
  deriving Repr, DecidableEq

/-- Row of `order_status_history` (models.py, class OrderStatusHistory). -/
structure OrderStatusHistory where
  orderId : Nat
  status : String
  timestamp : Nat
  notes : String
  userId : Option Nat
  deriving Repr, DecidableEq

/-- Row of `production_status_history` (models.py, class ProductionStatusHistory). -/
structure ProductionStatusHistory where
  orderItemId : Nat
  stepId : Nat
  status : String
  timestamp : Nat
  notes : String
  completedByUserId : Option Nat
  deriving Repr, DecidableEq

/-- Row of `stock_history` (models.py, class StockHistory). -/
structure StockHistory where
  accessoryId : Nat
  changeType : String
  quantityChange : Int
  newStockLevel : Int
  reason : String
  orderId : Option Nat
  userId : Option Nat
  deriving Repr, DecidableEq

/-- The database state: one list of rows per table, in insertion order
(primary-key order), so that list order models SQLAlchemy creation order. -/
structure DB where
  machineFamilies : List MachineFamily
  accessories : List Accessory
  familyAccessories : List FamilyAccessory
  orders : List Order
  orderItems : List OrderItem
  orderItemAccessories : List OrderItemAccessory
  productionSteps : List ProductionProcessStep
  orderStatusHistory : List OrderStatusHistory
  productionStatusHistory : List ProductionStatusHistory
  stockHistory : List StockHistory
  deriving Repr, DecidableEq

/-- Replace the first list element satisfying `p` by `f` of it, leaving the
rest unchanged: models fetching one ORM row with `.first()` / `.get()` and
mutating that object in place. -/
def updateFirst (p : α → Bool) (f : α → α) : List α → List α
  | [] => []
  | x :: xs => if p x then f x :: xs else x :: updateFirst p f xs

/-- Models `db.query(Order).get(order_id)`. -/
def findOrder (db : DB) (orderId : Nat) : Option Order :=
  db.orders.find? (fun o => o.id == orderId)

/-- Outcome of `update_overall_order_status` (streamlit_app.py:215):
`updated` is the commit branch, `noChange` the warning branch ("Status is
already the same or order not found."). -/
inductive UpdateResult
  | updated
  | noChange
  deriving Repr, DecidableEq

/-- Models `update_overall_order_status` (streamlit_app.py:215-233): if the
order exists and its status differs from `newStatus`, set the status and
append an `OrderStatusHistory` row in the same commit; otherwise do nothing.
No validation of the direction of the transition is performed. -/
def updateOverallOrderStatus (db : DB) (orderId : Nat) (newStatus : String)
    (userId : Option Nat) (now : Nat) : DB × UpdateResult :=
  match findOrder db orderId with
  | some order =>
    if order.status ≠ newStatus then
      ({ db with
          orders := updateFirst (fun o => o.id == orderId)
            (fun o => { o with status := newStatus }) db.orders,
          orderStatusHistory := db.orderStatusHistory ++
            [{ orderId := orderId, status := newStatus, timestamp := now,
               notes := "Status updated from " ++ order.status ++ " to " ++ newStatus,
               userId := userId }] },
        .updated)
    else (db, .noChange)
  | none => (db, .noChange)

/-- Models `db.query(MachineFamily).filter_by(name="Documents Bundle").first()`
(streamlit_app.py:810). -/
def findDocumentsFamily (db : DB) : Option MachineFamily :=
  db.machineFamilies.find? (fun mf => mf.name == "Documents Bundle")

/-- The accessories of one order item, in creation order (models the
`OrderItem.accessories` relationship). -/
def accessoriesOfItem (db : DB) (orderItemId : Nat) : List OrderItemAccessory :=
  db.orderItemAccessories.filter (fun oia => oia.orderItemId == orderItemId)

/-- Models the nested loop of streamlit_app.py:815-830: iterate the order
items of the order that belong to the Documents Bundle family, in creation
order, and inside each its accessories in creation order; return the first
accessory with `is_required_for_dispatch` true whose `notes` is not the
literal "Attached" (the loop breaks at the first failure). -/
def firstOffendingDocAccessory (db : DB) (orderId : Nat) (famId : Nat) :
    Option OrderItemAccessory :=
  (db.orderItems.filter
      (fun oi => oi.orderId == orderId && oi.machineFamilyId == famId)).findSome?
    (fun oi => (accessoriesOfItem db oi.id).find?
      (fun oia => oia.isRequiredForDispatch && oia.notes != some "Attached"))

/-- Outcome of pressing the "Update Order Status" button on the View Orders
page: either the document gate blocks (an error naming the offending
accessory is shown, no mutation), or the update proceeds. -/
inductive GateResult
  | dispatchBlocked (accessoryId : Nat)
  | proceeded (r : UpdateResult)
  deriving Repr, DecidableEq

/-- The two target statuses that trigger the document check
(streamlit_app.py:813). -/
def isDispatchClass (s : String) : Bool :=
  s == "Ready for Dispatch" || s == "Dispatched"

/-- Models streamlit_app.py:809-838, the status-update button handler: the
document-completion check runs only when the target status is
"Ready for Dispatch" or "Dispatched" AND a machine family named
"Documents Bundle" exists; it scans only order items of that family.  If an
offending accessory is found, the update is skipped; otherwise
`update_overall_order_status` runs. -/
def attemptUpdateOrderStatus (db : DB) (orderId : Nat) (newStatus : String)
    (userId : Option Nat) (now : Nat) : DB × GateResult :=
  let offender :=
    if isDispatchClass newStatus then
      match findDocumentsFamily db with
      | some fam => firstOffendingDocAccessory db orderId fam.id
      | none => none
    else none
  match offender with
  | some oia => (db, .dispatchBlocked oia.id)
  | none =>
    let res := updateOverallOrderStatus db orderId newStatus userId now
    (res.1, .proceeded res.2)

/-- Outcome of `update_order_item_production_status` (streamlit_app.py:235).
The five constructors match the five UI outcomes: item-not-found warning,
step-not-found error, the update-existing-row commit, the already-at-status
info message, and the create-new-row commit. -/
inductive ProdUpdateResult
  | itemNotFound
  | stepNotFound
  | updatedExisting
  | alreadySet
  | createdNew
  deriving Repr, DecidableEq

/-- Models `update_order_item_production_status` (streamlit_app.py:235-277):
look up the order item and the step by name; if a
`ProductionStatusHistory` row for this (item, step) pair already exists,
update its status, timestamp, notes and user in place when the status
differs (no-op when equal); otherwise append a new row.  No comparison of
`order_index` with any current step is performed. -/
def updateOrderItemProductionStatus (db : DB) (orderItemId : Nat)
    (newStepName : String) (userId : Option Nat) (status : String)
    (now : Nat) : DB × ProdUpdateResult :=
  match db.orderItems.find? (fun oi => oi.id == orderItemId) with
  | none => (db, .itemNotFound)
  | some _ =>
    match db.productionSteps.find? (fun s => s.stepName == newStepName) with
    | none => (db, .stepNotFound)
    | some newStep =>
      match db.productionStatusHistory.find?
          (fun h => h.orderItemId == orderItemId && h.stepId == newStep.id) with
      | some existing =>
        if existing.status ≠ status then
          let txt := "Production status for " ++ newStepName ++ " updated to " ++ status
          let hist := updateFirst
            (fun h => h.orderItemId == orderItemId && h.stepId == newStep.id)
            (fun h => { h with status := status, timestamp := now, notes := txt, completedByUserId := userId })
            db.productionStatusHistory
          ({ db with productionStatusHistory := hist }, .updatedExisting)
        else (db, .alreadySet)
      | none =>
        ({ db with productionStatusHistory := db.productionStatusHistory ++
            [{ orderItemId := orderItemId, stepId := newStep.id, status := status,
               timestamp := now,
               notes := "Production status set to " ++ newStepName,
               completedByUserId := userId }] },
          .createdNew)

/-- Models `db.query(Accessory)` row fetch by primary key. -/
def findAccessory (db : DB) (accId : Nat) : Option Accessory :=
  db.accessories.find? (fun a => a.id == accId)

/-- The stock-movement rows of one accessory, in insertion order (models the
`Accessory.stock_history` relationship / the filtered StockHistory query). -/
def movementsOf (db : DB) (accId : Nat) : List StockHistory :=
  db.stockHistory.filter (fun h => h.accessoryId == accId)

/-- Outcome of the three stock-movement forms on the Inventory page.
`recorded` is the commit branch; the error constructors match the warning /
error branches of streamlit_app.py:1080-1165. -/
inductive StockResult
  | recorded
  | invalidQuantity
  | insufficientStock
  | reasonRequired
  | accessoryNotFound
  deriving Repr, DecidableEq

/-- Set an accessory level and append the matching StockHistory row, as one
unit (the shared shape of the three movement commit branches). -/
def commitMovement (db : DB) (accId : Nat) (newLevel : Int)
    (changeType : String) (qtyChange : Int) (reason : String)
    (orderId : Option Nat) (userId : Option Nat) : DB :=
  { db with
    accessories := updateFirst (fun a => a.id == accId)
      (fun a => { a with currentStockLevel := newLevel }) db.accessories,
    stockHistory := db.stockHistory ++
      [{ accessoryId := accId, changeType := changeType,
         quantityChange := qtyChange, newStockLevel := newLevel,
         reason := reason, orderId := orderId, userId := userId }] }

/-- Models the Stock In form handler (streamlit_app.py:1080-1096): if the
quantity is positive, increment the level and append an "IN" row. -/
def recordStockIn (db : DB) (accId : Nat) (qtyIn : Int) (reason : String)
    (userId : Option Nat) : DB × StockResult :=
  match findAccessory db accId with
  | none => (db, .accessoryNotFound)
  | some acc =>
    if 0 < qtyIn then
      (commitMovement db accId (acc.currentStockLevel + qtyIn) "IN" qtyIn
        reason none userId, .recorded)
    else (db, .invalidQuantity)

/-- Python `str.split('-')` on the character list of a string: splits at every
dash, keeping empty segments, and yields one (empty) segment for the empty
string. -/
def splitDash : List Char → List (List Char)
  | [] => [[]]
  | c :: rest =>
    let r := splitDash rest
    if c == '-' then [] :: r
    else
      match r with
      | [] => [[c]]
      | g :: gs => (c :: g) :: gs

/-- Python `str.isdigit()` restricted to ASCII: nonempty and all digits. -/
def isDigits (cs : List Char) : Bool :=
  !cs.isEmpty && cs.all Char.isDigit

/-- Decimal value of a digit list (Python `int(s)` on a digit-only string). -/
def digitsToNat (cs : List Char) : Nat :=
  cs.foldl (fun n c => 10 * n + (c.toNat - 48)) 0

/-- Models the order-reference parsing of the Stock Out form
(streamlit_app.py:1113-1125): split the typed string on dashes; accept only
the exact shape EQV-ORD-digits; then look the order up by number and
prefix-column value; any failure yields no linkage (with a warning). -/
def resolveOrderRef (db : DB) (s : String) : Option Nat :=
  match splitDash s.toList with
  | [p0, p1, p2] =>
    if p0 == "EQV".toList && p1 == "ORD".toList && isDigits p2 then
      match db.orders.find?
          (fun o => o.orderNumber == digitsToNat p2 && o.idPref == "EQV-ORD") with
      | some o => some o.id
      | none => none
    else none
  | _ => none

/-- Models the Stock Out form handler (streamlit_app.py:1107-1140): reject a
non-positive quantity; reject with the "Not enough stock available!" error
when the current level is below the quantity (no mutation); otherwise
resolve the optional order reference (a bad reference degrades to no
linkage), decrement the level and append an "OUT" row with the negated
quantity as `quantity_change`. -/
def recordStockOut (db : DB) (accId : Nat) (qtyOut : Int) (reason : String)
    (orderRef : String) (userId : Option Nat) : DB × StockResult :=
  match findAccessory db accId with
  | none => (db, .accessoryNotFound)
  | some acc =>
    if qtyOut ≤ 0 then (db, .invalidQuantity)
    else if acc.currentStockLevel < qtyOut then (db, .insufficientStock)
    else
      let associated := if orderRef ≠ "" then resolveOrderRef db orderRef else none
      (commitMovement db accId (acc.currentStockLevel - qtyOut) "OUT" (-qtyOut)
        reason associated userId, .recorded)

/-- Models the Manual Adjustment form handler (streamlit_app.py:1142-1165):
requires a nonempty reason; applies the signed quantity to the level with no
stock check and appends an "ADJUSTMENT" row. -/
def recordAdjustment (db : DB) (accId : Nat) (adjQty : Int) (reason : String)
    (userId : Option Nat) : DB × StockResult :=
  match findAccessory db accId with
  | none => (db, .accessoryNotFound)
  | some acc =>
    if reason ≠ "" then
      (commitMovement db accId (acc.currentStockLevel + adjQty) "ADJUSTMENT"
        adjQty ("Manual Adjustment: " ++ reason) none userId, .recorded)
    else (db, .reasonRequired)

/-- One submitted stock-movement form, for stating ledger invariants across
all three movement kinds. -/
inductive StockOp
  | opIn (accId : Nat) (qty : Int) (reason : String) (userId : Option Nat)
  | opOut (accId : Nat) (qty : Int) (reason : String) (orderRef : String)
      (userId : Option Nat)
  | opAdjust (accId : Nat) (qty : Int) (reason : String) (userId : Option Nat)

/-- Dispatch a submitted movement form to its handler. -/
def applyStockOp (db : DB) : StockOp → DB × StockResult
  | .opIn accId qty reason userId => recordStockIn db accId qty reason userId
  | .opOut accId qty reason orderRef userId =>
    recordStockOut db accId qty reason orderRef userId
  | .opAdjust accId qty reason userId => recordAdjustment db accId qty reason userId

/-- Models the Add/Update Default Accessory form handler
(streamlit_app.py:1286-1314): if a FamilyAccessory row for the
(family, accessory) pair exists, overwrite its quantity and flags in place;
otherwise insert a new row. -/
def linkDefaultAccessory (db : DB) (rowId : Nat) (famId : Nat) (accId : Nat)
    (defaultQty : Int) (isVariable : Bool) (placeholderText : String)
    (reqDispatch : Bool) : DB :=
  match db.familyAccessories.find?
      (fun fa => fa.machineFamilyId == famId && fa.accessoryId == accId) with
  | some _ =>
    let links := updateFirst
      (fun fa => fa.machineFamilyId == famId && fa.accessoryId == accId)
      (fun fa => { fa with defaultQuantity := defaultQty, isVariable := isVariable, variablePlaceholder := some placeholderText, isRequiredForDispatch := reqDispatch })
      db.familyAccessories
    { db with familyAccessories := links }
  | none =>
    { db with familyAccessories := db.familyAccessories ++
        [{ id := rowId, machineFamilyId := famId, accessoryId := accId,
           defaultQuantity := defaultQty, isVariable := isVariable,
           variablePlaceholder := some placeholderText,
           isRequiredForDispatch := reqDispatch }] }

/-- One entry of `st.session_state.order_items_config` on the Create Order
page: the machine family, description, quantity and unit price chosen. -/
structure ItemConfig where
  famId : Nat
  itemDescription : Option String
  quantity : Int
  unitPrice : Int
  deriving Repr, DecidableEq

/-- Models the default-accessory materialization of the Create Order handler
(streamlit_app.py:608-623): for each FamilyAccessory of the item's family
(in creation order), build an OrderItemAccessory whose quantity is the
default quantity scaled by the item quantity, whose unit price is the
accessory's price (0 when the accessory row is missing, mirroring the
None-guard), whose dispatch flag is copied, and whose notes hold the
variable placeholder exactly when the link is variable.  Row ids are
allocated sequentially from `oiaBase`. -/
def materializeDefaultAccessories (db : DB) (orderItemId : Nat) (famId : Nat)
    (itemQty : Int) (oiaBase : Nat) : List OrderItemAccessory :=
  match db.machineFamilies.find? (fun mf => mf.id == famId) with
  | none => []
  | some _ =>
    ((db.familyAccessories.filter (fun fa => fa.machineFamilyId == famId)).enum).map
      (fun p =>
        { id := oiaBase + p.1, orderItemId := orderItemId,
          accessoryId := p.2.accessoryId,
          quantity := p.2.defaultQuantity * itemQty,
          unitPrice := ((findAccessory db p.2.accessoryId).map
            (fun a => a.pricePerUnit)).getD 0,
          isRequiredForDispatch := p.2.isRequiredForDispatch,
          notes := if p.2.isVariable then p.2.variablePlaceholder else none })

/-- Models one iteration of the order-item loop of the Create Order handler
(streamlit_app.py:596-623): insert the OrderItem row (total price = quantity
times unit price) and its materialized default accessories. -/
def addOrderItem (db : DB) (orderId : Nat) (itemId : Nat) (cfg : ItemConfig)
    (oiaBase : Nat) : DB :=
  { db with
    orderItems := db.orderItems ++
      [{ id := itemId, orderId := orderId, machineFamilyId := cfg.famId,
         itemDescription := cfg.itemDescription, quantity := cfg.quantity,
         unitPrice := cfg.unitPrice,
         totalPrice := cfg.quantity * cfg.unitPrice }],
    orderItemAccessories := db.orderItemAccessories ++
      materializeDefaultAccessories db itemId cfg.famId cfg.quantity oiaBase }

/-- The cached stock level of an accessory, when the accessory exists. -/
def currentLevel (db : DB) (accId : Nat) : Option Int :=
  (findAccessory db accId).map (fun a => a.currentStockLevel)

/-- The most recent stock movement of an accessory (rows are kept in
insertion order, so the last row is the most recent). -/
def lastMovement (db : DB) (accId : Nat) : Option StockHistory :=
  (movementsOf db accId).getLast?

/-- The ledger-agreement invariant for one accessory: whenever it has at
least one stock movement, its cached level equals the most recent
movement's `new_stock_level`. -/
def ledgerAgrees (db : DB) (accId : Nat) : Bool :=
  match lastMovement db accId with
  | none => true
  | some m => currentLevel db accId == some m.newStockLevel

/-- The FamilyAccessory rows for one (family, accessory) pair. -/
def linksFor (db : DB) (famId : Nat) (accId : Nat) : List FamilyAccessory :=
  db.familyAccessories.filter
    (fun fa => fa.machineFamilyId == famId && fa.accessoryId == accId)

/-- At most one ProductionStatusHistory row per (order item, step) pair: the
property backed by the source uniqueness constraint `_order_item_step_uc`
(models.py:232). -/
abbrev uniqProdHistory (db : DB) : Prop :=
  db.productionStatusHistory.Pairwise
    (fun a b => a.orderItemId ≠ b.orderItemId ∨ a.stepId ≠ b.stepId)

/-! Concrete database states used to settle the claims on explicit inputs. -/

/-- A database with every table empty. -/
def emptyDB : DB :=
  { machineFamilies := [], accessories := [], familyAccessories := [],
    orders := [], orderItems := [], orderItemAccessories := [],
    productionSteps := [], orderStatusHistory := [],
    productionStatusHistory := [], stockHistory := [] }

/-- The machine-family seed rows of `initialize_master_data`
(database.py:88-110), ids in creation order. -/
def seedFamilies : List MachineFamily :=
  [ { id := 1, name := "Universal Testing Machine (UTM)", isProduct := true },
    { id := 2, name := "Hydraulic Press", isProduct := true },
    { id := 3, name := "Hardness Tester", isProduct := true },
    { id := 4, name := "Documents Bundle", isProduct := false } ]

/-- The accessory seed rows of `initialize_master_data` (database.py:114-150):
each is created directly with a possibly nonzero `current_stock_level` and no
StockHistory row. -/
def seedAccessories : List Accessory :=
  [ { id := 1, name := "Load Cell 10KN", accessoryId := "LC-10KN-001",
      categoryTag := "Loadcell", unitOfMeasure := "pcs", minStockLevel := 2,
      currentStockLevel := 5, pricePerUnit := 5000 },
    { id := 2, name := "Gripping Jaws Set (Flat)", accessoryId := "GJ-FLAT-001",
      categoryTag := "Mechanical", unitOfMeasure := "sets", minStockLevel := 3,
      currentStockLevel := 10, pricePerUnit := 3500 },
    { id := 3, name := "Hydraulic Pump Unit (2HP)", accessoryId := "HP-2HP-001",
      categoryTag := "Hydraulic", unitOfMeasure := "pcs", minStockLevel := 1,
      currentStockLevel := 3, pricePerUnit := 15000 },
    { id := 4, name := "Brinell Indenter", accessoryId := "BI-001",
      categoryTag := "Hardness", unitOfMeasure := "pcs", minStockLevel := 1,
      currentStockLevel := 5, pricePerUnit := 1200 },
    { id := 5, name := "User Manual (Digital)", accessoryId := "DOC-UM-001",
      categoryTag := "Documents", unitOfMeasure := "file", minStockLevel := 0,
      currentStockLevel := 100, pricePerUnit := 0 },
    { id := 6, name := "Calibration Certificate", accessoryId := "DOC-CALIB-001",
      categoryTag := "Documents", unitOfMeasure := "file", minStockLevel := 0,
      currentStockLevel := 100, pricePerUnit := 0 },
    { id := 7, name := "Installation Report", accessoryId := "DOC-INSTALL-001",
      categoryTag := "Documents", unitOfMeasure := "file", minStockLevel := 0,
      currentStockLevel := 100, pricePerUnit := 0 } ]

/-- The family-accessory seed links of `initialize_master_data`
(database.py:153-188). -/
def seedFamilyAccessories : List FamilyAccessory :=
  [ { id := 1, machineFamilyId := 1, accessoryId := 1, defaultQuantity := 1,
      isVariable := false, variablePlaceholder := none,
      isRequiredForDispatch := false },
    { id := 2, machineFamilyId := 1, accessoryId := 2, defaultQuantity := 1,
      isVariable := false, variablePlaceholder := none,
      isRequiredForDispatch := false },
    { id := 3, machineFamilyId := 2, accessoryId := 3, defaultQuantity := 1,
      isVariable := false, variablePlaceholder := none,
      isRequiredForDispatch := false },
    { id := 4, machineFamilyId := 3, accessoryId := 4, defaultQuantity := 1,
      isVariable := false, variablePlaceholder := none,
      isRequiredForDispatch := false },
    { id := 5, machineFamilyId := 4, accessoryId := 5, defaultQuantity := 1,
      isVariable := true, variablePlaceholder := some "Manual Version/Date: _______",
      isRequiredForDispatch := true },
    { id := 6, machineFamilyId := 4, accessoryId := 6, defaultQuantity := 1,
      isVariable := false, variablePlaceholder := none,
      isRequiredForDispatch := true },
    { id := 7, machineFamilyId := 4, accessoryId := 7, defaultQuantity := 1,
      isVariable := false, variablePlaceholder := none,
      isRequiredForDispatch := true } ]

/-- The production-step seed rows of `initialize_master_data`
(database.py:192-208), ids in creation order. -/
def seedSteps : List ProductionProcessStep :=
  [ { id := 1, stepName := "Design Approval", orderIndex := 1, isDispatchStep := false },
    { id := 2, stepName := "Raw Material Sourcing", orderIndex := 2, isDispatchStep := false },
    { id := 3, stepName := "Fabrication", orderIndex := 3, isDispatchStep := false },
    { id := 4, stepName := "Mechanical Assembly", orderIndex := 4, isDispatchStep := false },
    { id := 5, stepName := "Electrical Wiring", orderIndex := 5, isDispatchStep := false },
    { id := 6, stepName := "Testing & Calibration", orderIndex := 6, isDispatchStep := false },
    { id := 7, stepName := "Quality Control", orderIndex := 7, isDispatchStep := false },
    { id := 8, stepName := "Packaging", orderIndex := 8, isDispatchStep := false },
    { id := 9, stepName := "Dispatch Approval", orderIndex := 9, isDispatchStep := true },
    { id := 10, stepName := "Dispatched", orderIndex := 10, isDispatchStep := true } ]

/-- The database right after `initialize_master_data` (database.py:53-212):
master data seeded, no orders, and an empty stock ledger although several
accessories carry a nonzero `current_stock_level`. -/
def seedDB : DB :=
  { emptyDB with
    machineFamilies := seedFamilies, accessories := seedAccessories,
    familyAccessories := seedFamilyAccessories, productionSteps := seedSteps }

/-- An order in "In Production" whose only line item belongs to the UTM
family (not the Documents Bundle) and carries a dispatch-required accessory
that is not marked "Attached". -/
def dbC1 : DB :=
  { seedDB with
    orders := [ { id := 1, customerId := 1, orderNumber := 1, idPref := "EQV-ORD",
                  totalAmount := 100, status := "In Production" } ],
    orderItems := [ { id := 1, orderId := 1, machineFamilyId := 1,
                      itemDescription := none, quantity := 1, unitPrice := 100,
                      totalPrice := 100 } ],
    orderItemAccessories := [ { id := 1, orderItemId := 1, accessoryId := 1,
                                quantity := 1, unitPrice := 5000,
                                isRequiredForDispatch := true, notes := none } ] }

/-- Like dbC1 but the line item belongs to the Documents Bundle family
(id 4), so the document gate does inspect it. -/
def dbC1b : DB :=
  { seedDB with
    orders := [ { id := 1, customerId := 1, orderNumber := 1, idPref := "EQV-ORD",
                  totalAmount := 100, status := "In Production" } ],
    orderItems := [ { id := 1, orderId := 1, machineFamilyId := 4,
                      itemDescription := none, quantity := 1, unitPrice := 100,
                      totalPrice := 100 } ],
    orderItemAccessories := [ { id := 1, orderItemId := 1, accessoryId := 6,
                                quantity := 1, unitPrice := 0,
                                isRequiredForDispatch := true, notes := none } ] }

/-- Two orders already in the terminal-most statuses, for exercising
backward transitions. -/
def dbC2 : DB :=
  { seedDB with
    orders := [ { id := 1, customerId := 1, orderNumber := 1, idPref := "EQV-ORD",
                  totalAmount := 0, status := "Dispatched" },
                { id := 2, customerId := 1, orderNumber := 2, idPref := "EQV-ORD",
                  totalAmount := 0, status := "Completed" } ] }

/-- A line item whose only production history row is at the step with
order_index 3 ("Fabrication"), for exercising a move to an earlier step. -/
def dbC5 : DB :=
  { seedDB with
    orders := [ { id := 1, customerId := 1, orderNumber := 1, idPref := "EQV-ORD",
                  totalAmount := 0, status := "In Production" } ],
    orderItems := [ { id := 1, orderId := 1, machineFamilyId := 1,
                      itemDescription := none, quantity := 1, unitPrice := 0,
                      totalPrice := 0 } ],
    productionStatusHistory := [ { orderItemId := 1, stepId := 3,
                                   status := "Completed", timestamp := 10,
                                   notes := "", completedByUserId := none } ] }

/-- A family whose single default link is NOT variable but carries a
placeholder text, for exercising the placeholder copy at materialization. -/
def dbC6 : DB :=
  { emptyDB with
    machineFamilies := [ { id := 1, name := "Universal Testing Machine (UTM)",
                           isProduct := true } ],
    accessories := [ { id := 10, name := "Load Cell 10KN",
                       accessoryId := "LC-10KN-001", categoryTag := "Loadcell",
                       unitOfMeasure := "pcs", minStockLevel := 2,
                       currentStockLevel := 5, pricePerUnit := 5000 } ],
    familyAccessories := [ { id := 1, machineFamilyId := 1, accessoryId := 10,
                             defaultQuantity := 1, isVariable := false,
                             variablePlaceholder := some "Manual Version: 2024",
                             isRequiredForDispatch := true } ] }

/-- The line-item configuration used with dbC6: quantity 2. -/
def cfgC6 : ItemConfig :=
  { famId := 1, itemDescription := none, quantity := 2, unitPrice := 100 }

/-! Generic lemmas about `updateFirst`, `find?` and `findSome?`. -/

theorem updateFirst_length (p : α → Bool) (f : α → α) (l : List α) :
    (updateFirst p f l).length = l.length := by
  induction l with
  | nil => rfl
  | cons x xs ih =>
    simp only [updateFirst]
    split <;> simp [ih]

theorem updateFirst_of_forall_not (p : α → Bool) (f : α → α) (l : List α)
    (h : ∀ a ∈ l, p a = false) : updateFirst p f l = l := by
  induction l with
  | nil => rfl
  | cons x xs ih =>
    have hx : p x = false := h x (by simp)
    simp only [updateFirst, hx]
    simp [ih (fun a ha => h a (by simp [ha]))]

theorem updateFirst_append_of_forall_not (p : α → Bool) (f : α → α)
    (l1 l2 : List α) (h : ∀ a ∈ l1, p a = false) :
    updateFirst p f (l1 ++ l2) = l1 ++ updateFirst p f l2 := by
  induction l1 with
  | nil => rfl
  | cons x xs ih =>
    have hx : p x = false := h x (by simp)
    simp only [List.cons_append, updateFirst, hx]
    simp [ih (fun a ha => h a (by simp [ha]))]

theorem find?_updateFirst_self (p : α → Bool) (f : α → α) (l : List α)
    (hp : ∀ a, p (f a) = p a) :
    (updateFirst p f l).find? p = (l.find? p).map f := by
  induction l with
  | nil => rfl
  | cons x xs ih =>
    simp only [updateFirst]
    by_cases hx : p x = true
    · simp [hx, List.find?_cons, hp x]
    · have hx0 : p x = false := by revert hx; cases p x <;> simp
      simp [hx0, List.find?_cons, ih]

theorem find?_updateFirst_of_disjoint (p q : α → Bool) (f : α → α) (l : List α)
    (hq : ∀ a, q (f a) = q a) (hdisj : ∀ a, p a = true → q a = false) :
    (updateFirst p f l).find? q = l.find? q := by
  induction l with
  | nil => rfl
  | cons x xs ih =>
    simp only [updateFirst]
    cases hpx : p x with
    | true => simp [List.find?_cons, hq x, hdisj x hpx]
    | false =>
      cases hqx : q x with
      | true => simp [List.find?_cons, hqx]
      | false => simp [List.find?_cons, hqx, ih]

theorem mem_updateFirst (p : α → Bool) (f : α → α) (l : List α) (b : α)
    (hb : b ∈ updateFirst p f l) : b ∈ l ∨ ∃ a ∈ l, b = f a := by
  induction l with
  | nil => simp [updateFirst] at hb
  | cons x xs ih =>
    simp only [updateFirst] at hb
    cases hpx : p x with
    | true =>
      rw [hpx, if_pos rfl] at hb
      rcases List.mem_cons.mp hb with hb1 | hb1
      · exact Or.inr ⟨x, by simp, hb1⟩
      · exact Or.inl (by simp [hb1])
    | false =>
      rw [hpx] at hb
      simp only [Bool.false_eq_true, if_false] at hb
      rcases List.mem_cons.mp hb with hb1 | hb1
      · exact Or.inl (by simp [hb1])
      · rcases ih hb1 with h1 | ⟨a, ha, rfl⟩
        · exact Or.inl (by simp [h1])
        · exact Or.inr ⟨a, by simp [ha], rfl⟩

theorem pairwise_updateFirst {R : α → α → Prop} (p : α → Bool) (f : α → α)
    (hfl : ∀ a b, R a b → R (f a) b) (hfr : ∀ a b, R a b → R a (f b))
    (l : List α) (h : l.Pairwise R) : (updateFirst p f l).Pairwise R := by
  induction l with
  | nil => exact h
  | cons x xs ih =>
    rcases List.pairwise_cons.mp h with ⟨hx, hxs⟩
    simp only [updateFirst]
    by_cases hpx : p x = true
    · simp only [hpx, if_true]
      exact List.pairwise_cons.mpr ⟨fun b hb => hfl x b (hx b hb), hxs⟩
    · have hx0 : p x = false := by revert hpx; cases p x <;> simp
      simp only [hx0, if_false]
      refine List.pairwise_cons.mpr ⟨?_, ih hxs⟩
      intro b hb
      rcases mem_updateFirst p f xs b hb with hmem | ⟨a, ha, rfl⟩
      · exact hx b hmem
      · exact hfr x a (hx a ha)

theorem findSome?_isSome_iff {g : α → Option β} {l : List α} :
    (l.findSome? g).isSome = true ↔ ∃ a ∈ l, (g a).isSome = true := by
  induction l with
  | nil => simp
  | cons x xs ih =>
    rw [List.findSome?_cons]
    cases hx : g x <;> simp [hx, ih]

/-! Lemmas about `commitMovement`, the shared commit of the three
stock-movement handlers. -/

theorem currentLevel_commitMovement_self (db : DB) (accId : Nat) (newLevel : Int)
    (ct : String) (qc : Int) (r : String) (oid uid : Option Nat)
    (h : (findAccessory db accId).isSome = true) :
    currentLevel (commitMovement db accId newLevel ct qc r oid uid) accId =
      some newLevel := by
  unfold currentLevel findAccessory commitMovement
  dsimp only
  rw [find?_updateFirst_self (fun a => a.id == accId)
    (fun a => { a with currentStockLevel := newLevel }) db.accessories
    (fun a => rfl)]
  rcases Option.isSome_iff_exists.mp h with ⟨acc, hacc⟩
  unfold findAccessory at hacc
  rw [hacc]
  rfl

theorem currentLevel_commitMovement_other (db : DB) (accT accId : Nat)
    (hne : accId ≠ accT) (newLevel : Int) (ct : String) (qc : Int) (r : String)
    (oid uid : Option Nat) :
    currentLevel (commitMovement db accT newLevel ct qc r oid uid) accId =
      currentLevel db accId := by
  unfold currentLevel findAccessory commitMovement
  dsimp only
  rw [find?_updateFirst_of_disjoint (fun a => a.id == accT) (fun a => a.id == accId)
    (fun a => { a with currentStockLevel := newLevel }) db.accessories
    (fun a => rfl) ?side]
  case side =>
    intro a ha
    have ha2 : a.id = accT := by simpa using ha
    simp [ha2, Ne.symm hne]

theorem lastMovement_commitMovement_self (db : DB) (accId : Nat) (newLevel : Int)
    (ct : String) (qc : Int) (r : String) (oid uid : Option Nat) :
    lastMovement (commitMovement db accId newLevel ct qc r oid uid) accId =
      some { accessoryId := accId, changeType := ct, quantityChange := qc,
             newStockLevel := newLevel, reason := r, orderId := oid,
             userId := uid } := by
  unfold lastMovement movementsOf commitMovement
  simp [List.filter_append, List.getLast?_concat]

theorem lastMovement_commitMovement_other (db : DB) (accT accId : Nat)
    (hne : accId ≠ accT) (newLevel : Int) (ct : String) (qc : Int) (r : String)
    (oid uid : Option Nat) :
    lastMovement (commitMovement db accT newLevel ct qc r oid uid) accId =
      lastMovement db accId := by
  unfold lastMovement movementsOf commitMovement
  simp [List.filter_append, Ne.symm hne]

theorem ledgerAgrees_commitMovement (db : DB) (accT : Nat) (newLevel : Int)
    (ct : String) (qc : Int) (r : String) (oid uid : Option Nat)
    (hT : (findAccessory db accT).isSome = true) (accId : Nat)
    (h : ledgerAgrees db accId = true) :
    ledgerAgrees (commitMovement db accT newLevel ct qc r oid uid) accId = true := by
  by_cases he : accId = accT
  · subst he
    unfold ledgerAgrees
    rw [lastMovement_commitMovement_self,
      currentLevel_commitMovement_self db accId newLevel ct qc r oid uid hT]
    simp
  · unfold ledgerAgrees at h ⊢
    rw [lastMovement_commitMovement_other db accT accId he,
      currentLevel_commitMovement_other db accT accId he]
    exact h

theorem stockHistory_commitMovement_ne (db : DB) (accT : Nat) (newLevel : Int)
    (ct : String) (qc : Int) (r : String) (oid uid : Option Nat) :
    (commitMovement db accT newLevel ct qc r oid uid).stockHistory ≠
      db.stockHistory := by
  intro hEq
  have := congrArg List.length hEq
  simp [commitMovement] at this

/-! Claim C3: accessory stock level versus the stock-movement ledger. -/

/-- Claim C3 counterexample: the claim states that an accessory with no
stock-movement records has `current_stock_level = 0` (equivalently, the
running sum of zero movements).  In the database produced by
`initialize_master_data`, accessory 1 ("Load Cell 10KN") has no stock
movement at all, yet its seeded `current_stock_level` is 5, not 0. -/
theorem c3_counterexample :
    movementsOf seedDB 1 = []
    ∧ (findAccessory seedDB 1).map Accessory.currentStockLevel = some 5
    ∧ (5 : Int) ≠ 0 := by decide

/-- Claim C3 (amended): for every accessory, `current_stock_level` equals
the `new_stock_level` of its most recent stock movement whenever at least
one movement exists (the base value when none exists is the level assigned
at creation, which may be nonzero); every stock-movement operation preserves
this, and never changes the level without appending a movement record. -/
theorem c3_stock_level_matches_ledger (db : DB) (op : StockOp) (accId : Nat)
    (h : ledgerAgrees db accId = true) :
    ledgerAgrees (applyStockOp db op).1 accId = true
    ∧ ((applyStockOp db op).1.stockHistory = db.stockHistory →
        currentLevel (applyStockOp db op).1 accId = currentLevel db accId) := by
  cases op with
  | opIn accT qty reason uid =>
    simp only [applyStockOp]
    unfold recordStockIn
    cases hacc : findAccessory db accT with
    | none => exact ⟨h, fun _ => rfl⟩
    | some acc =>
      dsimp only
      by_cases hq : 0 < qty
      · rw [if_pos hq]
        dsimp only
        exact ⟨ledgerAgrees_commitMovement db accT _ _ _ _ _ _
            (by rw [hacc]; rfl) accId h,
          fun hh => absurd hh (stockHistory_commitMovement_ne _ _ _ _ _ _ _ _)⟩
      · rw [if_neg hq]
        exact ⟨h, fun _ => rfl⟩
  | opOut accT qty reason orderRef uid =>
    simp only [applyStockOp]
    unfold recordStockOut
    cases hacc : findAccessory db accT with
    | none => exact ⟨h, fun _ => rfl⟩
    | some acc =>
      dsimp only
      by_cases hq : qty ≤ 0
      · rw [if_pos hq]
        exact ⟨h, fun _ => rfl⟩
      · rw [if_neg hq]
        by_cases hs : acc.currentStockLevel < qty
        · rw [if_pos hs]
          exact ⟨h, fun _ => rfl⟩
        · rw [if_neg hs]
          dsimp only
          exact ⟨ledgerAgrees_commitMovement db accT _ _ _ _ _ _
              (by rw [hacc]; rfl) accId h,
            fun hh => absurd hh (stockHistory_commitMovement_ne _ _ _ _ _ _ _ _)⟩
  | opAdjust accT qty reason uid =>
    simp only [applyStockOp]
    unfold recordAdjustment
    cases hacc : findAccessory db accT with
    | none => exact ⟨h, fun _ => rfl⟩
    | some acc =>
      dsimp only
      by_cases hr : reason ≠ ""
      · rw [if_pos hr]
        dsimp only
        exact ⟨ledgerAgrees_commitMovement db accT _ _ _ _ _ _
            (by rw [hacc]; rfl) accId h,
          fun hh => absurd hh (stockHistory_commitMovement_ne _ _ _ _ _ _ _ _)⟩
      · rw [if_neg hr]
        exact ⟨h, fun _ => rfl⟩

/-- Claim C3 witness: the amended invariant applied to the seeded database
and a concrete Stock In movement on accessory 1. -/
theorem c3_witness :
    ledgerAgrees seedDB 1 = true
    ∧ ledgerAgrees
        (applyStockOp seedDB (.opIn 1 4 "Supplier delivery" (some 1))).1 1 = true := by
  refine ⟨by decide, ?_⟩
  exact (c3_stock_level_matches_ledger seedDB
    (.opIn 1 4 "Supplier delivery" (some 1)) 1 (by decide)).1

/-! Claim C4: OUT movements are gated by available stock. -/

/-- Claim C4: an OUT movement whose quantity exceeds the accessory's current
stock level fails with the insufficient-stock error and performs no mutation
at all; an OUT movement within the available stock decrements the level and
appends, in the same unit of work, a movement record carrying the resulting
new stock level and the negated quantity. -/
theorem c4_out_movement_gated (db : DB) (accId : Nat) (qty : Int)
    (reason orderRef : String) (uid : Option Nat) (acc : Accessory)
    (hacc : findAccessory db accId = some acc) (hq : 1 ≤ qty) :
    (acc.currentStockLevel < qty →
      recordStockOut db accId qty reason orderRef uid =
        (db, .insufficientStock))
    ∧ (qty ≤ acc.currentStockLevel →
      (recordStockOut db accId qty reason orderRef uid).2 = .recorded
      ∧ currentLevel (recordStockOut db accId qty reason orderRef uid).1 accId =
          some (acc.currentStockLevel - qty)
      ∧ ∃ e : StockHistory,
          (recordStockOut db accId qty reason orderRef uid).1.stockHistory =
            db.stockHistory ++ [e]
          ∧ e.accessoryId = accId ∧ e.changeType = "OUT"
          ∧ e.quantityChange = -qty
          ∧ e.newStockLevel = acc.currentStockLevel - qty) := by
  have hq0 : ¬ qty ≤ 0 := by omega
  constructor
  · intro hlt
    unfold recordStockOut
    rw [hacc]
    dsimp only
    rw [if_neg hq0, if_pos hlt]
  · intro hge
    have hns : ¬ acc.currentStockLevel < qty := by omega
    unfold recordStockOut
    rw [hacc]
    dsimp only
    rw [if_neg hq0, if_neg hns]
    dsimp only
    refine ⟨rfl, ?_, ?_⟩
    · exact currentLevel_commitMovement_self db accId _ _ _ _ _ _
        (by rw [hacc]; rfl)
    · exact ⟨_, rfl, rfl, rfl, rfl, rfl⟩

/-- Claim C4 witness: on the seeded database, accessory 3 has stock 3; an
OUT of 5 fails with insufficient stock and mutates nothing, while an OUT of
2 succeeds and leaves level 1. -/
theorem c4_witness :
    recordStockOut seedDB 3 5 "Issued" "" none = (seedDB, .insufficientStock)
    ∧ (recordStockOut seedDB 3 2 "Issued" "" none).2 = .recorded
    ∧ currentLevel (recordStockOut seedDB 3 2 "Issued" "" none).1 3 =
        some ((3 : Int) - 2) := by
  refine ⟨?_, ?_, ?_⟩
  · exact (c4_out_movement_gated seedDB 3 5 "Issued" "" none
      ⟨3, "Hydraulic Pump Unit (2HP)", "HP-2HP-001", "Hydraulic", "pcs", 1, 3, 15000⟩
      (by decide) (by decide)).1 (by decide)
  · exact ((c4_out_movement_gated seedDB 3 2 "Issued" "" none
      ⟨3, "Hydraulic Pump Unit (2HP)", "HP-2HP-001", "Hydraulic", "pcs", 1, 3, 15000⟩
      (by decide) (by decide)).2 (by decide)).1
  · exact ((c4_out_movement_gated seedDB 3 2 "Issued" "" none
      ⟨3, "Hydraulic Pump Unit (2HP)", "HP-2HP-001", "Hydraulic", "pcs", 1, 3, 15000⟩
      (by decide) (by decide)).2 (by decide)).2.1

/-! Claim C8: ADJUSTMENT movements bypass the stock check; OUT and IN can
never drive the level negative. -/

/-- Claim C8: an ADJUSTMENT movement (with its mandatory nonempty reason) is
never rejected for insufficient stock: it applies its signed quantity to the
level whatever the current value is.  A successful OUT movement always
leaves a nonnegative level, and a successful IN movement strictly increases
the level, so only an explicit adjustment can drive the level negative. -/
theorem c8_adjustment_bypasses_stock_check (db : DB) (accId : Nat)
    (adjQty : Int) (reason : String) (uid : Option Nat) (acc : Accessory)
    (hacc : findAccessory db accId = some acc) (hr : reason ≠ "") :
    ((recordAdjustment db accId adjQty reason uid).2 = .recorded
      ∧ currentLevel (recordAdjustment db accId adjQty reason uid).1 accId =
          some (acc.currentStockLevel + adjQty))
    ∧ (∀ qty r2 oref db2,
        recordStockOut db accId qty r2 oref uid = (db2, .recorded) →
        ∃ l : Int, currentLevel db2 accId = some l ∧ 0 ≤ l)
    ∧ (∀ qty r2 db2,
        recordStockIn db accId qty r2 uid = (db2, .recorded) →
        currentLevel db2 accId = some (acc.currentStockLevel + qty) ∧ 0 < qty) := by
  refine ⟨?_, ?_, ?_⟩
  · unfold recordAdjustment
    rw [hacc]
    dsimp only
    rw [if_pos hr]
    exact ⟨rfl, currentLevel_commitMovement_self db accId _ _ _ _ _ _
      (by rw [hacc]; rfl)⟩
  · intro qty r2 oref db2 h
    unfold recordStockOut at h
    rw [hacc] at h
    dsimp only at h
    by_cases hq : qty ≤ 0
    · rw [if_pos hq] at h
      exact absurd (congrArg Prod.snd h) (by simp)
    · rw [if_neg hq] at h
      by_cases hs : acc.currentStockLevel < qty
      · rw [if_pos hs] at h
        exact absurd (congrArg Prod.snd h) (by simp)
      · rw [if_neg hs] at h
        have hdb : db2 = commitMovement db accId (acc.currentStockLevel - qty)
            "OUT" (-qty) r2
            (if oref ≠ "" then resolveOrderRef db oref else none) uid :=
          (congrArg Prod.fst h).symm
        subst hdb
        refine ⟨acc.currentStockLevel - qty, ?_, by omega⟩
        exact currentLevel_commitMovement_self db accId _ _ _ _ _ _
          (by rw [hacc]; rfl)
  · intro qty r2 db2 h
    unfold recordStockIn at h
    rw [hacc] at h
    dsimp only at h
    by_cases hq : 0 < qty
    · rw [if_pos hq] at h
      have hdb : db2 = commitMovement db accId (acc.currentStockLevel + qty)
          "IN" qty r2 none uid := (congrArg Prod.fst h).symm
      subst hdb
      refine ⟨?_, hq⟩
      exact currentLevel_commitMovement_self db accId _ _ _ _ _ _
        (by rw [hacc]; rfl)
    · rw [if_neg hq] at h
      exact absurd (congrArg Prod.snd h) (by simp)

/-- Claim C8 witness: on the seeded database, an adjustment of -10 on
accessory 1 (stock 5) succeeds and drives the level to -5. -/
theorem c8_witness :
    (recordAdjustment seedDB 1 (-10) "damage writeoff" none).2 = .recorded
    ∧ currentLevel (recordAdjustment seedDB 1 (-10) "damage writeoff" none).1 1 =
        some ((5 : Int) + (-10)) := by
  exact (c8_adjustment_bypasses_stock_check seedDB 1 (-10) "damage writeoff" none
    ⟨1, "Load Cell 10KN", "LC-10KN-001", "Loadcell", "pcs", 2, 5, 5000⟩
    (by decide) (by decide)).1

/-! Claim C10: a malformed or unknown associated-order reference never makes
an OUT movement fail. -/

/-- Claim C10: an OUT movement within the available stock, submitted with an
associated-order string that resolves to no existing order (malformed, or
well-formed but unknown), still succeeds: the level is decremented and the
movement row is written with no order linkage. -/
theorem c10_bad_order_ref_ignored (db : DB) (accId : Nat) (qty : Int)
    (reason orderRef : String) (uid : Option Nat) (acc : Accessory)
    (hacc : findAccessory db accId = some acc) (hq : 1 ≤ qty)
    (hs : qty ≤ acc.currentStockLevel)
    (href : resolveOrderRef db orderRef = none) :
    (recordStockOut db accId qty reason orderRef uid).2 = .recorded
    ∧ currentLevel (recordStockOut db accId qty reason orderRef uid).1 accId =
        some (acc.currentStockLevel - qty)
    ∧ ∃ e : StockHistory,
        (recordStockOut db accId qty reason orderRef uid).1.stockHistory =
          db.stockHistory ++ [e] ∧ e.orderId = none := by
  unfold recordStockOut
  rw [hacc]
  dsimp only
  rw [if_neg (by omega : ¬ qty ≤ 0),
    if_neg (by omega : ¬ acc.currentStockLevel < qty)]
  dsimp only
  have hassoc : (if orderRef ≠ "" then resolveOrderRef db orderRef else none) = none := by
    by_cases he : orderRef = ""
    · simp [he]
    · simp [he, href]
  rw [hassoc]
  exact ⟨rfl, currentLevel_commitMovement_self db accId _ _ _ _ _ _
    (by rw [hacc]; rfl), ⟨_, rfl, rfl⟩⟩

/-- Claim C10 witness: issuing 2 units of accessory 1 against the unknown
order reference "EQV-ORD-0099" succeeds on the seeded database. -/
theorem c10_witness :
    (recordStockOut seedDB 1 2 "Issued" "EQV-ORD-0099" none).2 = .recorded
    ∧ currentLevel (recordStockOut seedDB 1 2 "Issued" "EQV-ORD-0099" none).1 1 =
        some ((5 : Int) - 2) := by
  have h := c10_bad_order_ref_ignored seedDB 1 2 "Issued" "EQV-ORD-0099" none
    ⟨1, "Load Cell 10KN", "LC-10KN-001", "Loadcell", "pcs", 2, 5, 5000⟩
    (by decide) (by decide) (by decide) (by decide)
  exact ⟨h.1, h.2.1⟩

/-! Claim C7: linking the same (family, accessory) pair twice upserts. -/

/-- Claim C7: starting from a database with no FamilyAccessory row for the
pair, linking the pair twice (with any two parameter sets) leaves exactly
one row for the pair, carrying the second call's quantity and flags. -/
theorem c7_link_default_accessory_idempotent (db : DB) (famId accId : Nat)
    (rid1 rid2 : Nat) (q1 q2 : Int) (v1 v2 : Bool) (ph1 ph2 : String)
    (r1 r2 : Bool) (h : linksFor db famId accId = []) :
    ∃ fa : FamilyAccessory,
      linksFor (linkDefaultAccessory
          (linkDefaultAccessory db rid1 famId accId q1 v1 ph1 r1)
          rid2 famId accId q2 v2 ph2 r2) famId accId = [fa]
      ∧ fa.defaultQuantity = q2 ∧ fa.isVariable = v2
      ∧ fa.variablePlaceholder = some ph2 ∧ fa.isRequiredForDispatch = r2 := by
  unfold linksFor at h
  have hall : ∀ a ∈ db.familyAccessories,
      (a.machineFamilyId == famId && a.accessoryId == accId) = false := by
    intro a ha
    have := List.filter_eq_nil_iff.mp h a ha
    revert this
    cases (a.machineFamilyId == famId && a.accessoryId == accId) <;> simp
  have hnone : db.familyAccessories.find?
      (fun fa => fa.machineFamilyId == famId && fa.accessoryId == accId) = none :=
    List.find?_eq_none.mpr (fun a ha => by simp [hall a ha])
  unfold linkDefaultAccessory
  rw [hnone]
  dsimp only
  have hfind2 : (db.familyAccessories ++
      [({ id := rid1, machineFamilyId := famId, accessoryId := accId,
          defaultQuantity := q1, isVariable := v1,
          variablePlaceholder := some ph1,
          isRequiredForDispatch := r1 } : FamilyAccessory)]).find?
        (fun fa => fa.machineFamilyId == famId && fa.accessoryId == accId) =
      some { id := rid1, machineFamilyId := famId, accessoryId := accId,
             defaultQuantity := q1, isVariable := v1,
             variablePlaceholder := some ph1, isRequiredForDispatch := r1 } := by
    rw [List.find?_append]
    rw [hnone]
    simp
  rw [hfind2]
  dsimp only
  rw [updateFirst_append_of_forall_not _ _ _ _ hall]
  refine ⟨{ id := rid1, machineFamilyId := famId, accessoryId := accId,
            defaultQuantity := q2, isVariable := v2,
            variablePlaceholder := some ph2,
            isRequiredForDispatch := r2 }, ?_, rfl, rfl, rfl, rfl⟩
  unfold linksFor
  dsimp only
  rw [List.filter_append, h]
  simp [updateFirst]

/-- Claim C7 witness: on the seeded database (which has no link between
family 1 and accessory 3), linking that pair twice yields exactly one row
with the second call's parameters. -/
theorem c7_witness :
    ∃ fa : FamilyAccessory,
      linksFor (linkDefaultAccessory
          (linkDefaultAccessory seedDB 8 1 3 1 false "" false)
          9 1 3 2 true "Enter model" true) 1 3 = [fa]
      ∧ fa.defaultQuantity = 2 ∧ fa.isVariable = true
      ∧ fa.variablePlaceholder = some "Enter model"
      ∧ fa.isRequiredForDispatch = true :=
  c7_link_default_accessory_idempotent seedDB 1 3 8 9 1 2 false true "" "Enter model"
    false true (by decide)

/-! Claim C6: materialization of default accessories at line-item creation. -/

/-- Claim C6 counterexample: the claim states that `is_variable` and the
variable placeholder are copied from the default link onto the created
OrderItemAccessory.  In dbC6 the single default link has
`is_variable = false` and placeholder "Manual Version: 2024"; the accessory
created for a quantity-2 line item carries the right quantity but a `notes`
of none: the placeholder is not copied (and the OrderItemAccessory model has
no `is_variable` column at all to copy into). -/
theorem c6_counterexample :
    dbC6.familyAccessories.map (fun fa => (fa.isVariable, fa.variablePlaceholder)) =
      [(false, some "Manual Version: 2024")]
    ∧ (addOrderItem dbC6 1 1 cfgC6 1).orderItemAccessories.map
        (fun o => (o.quantity, o.notes)) = [((2 : Int), (none : Option String))]
    ∧ (none : Option String) ≠ some "Manual Version: 2024" := by decide

/-- Claim C6 (amended): creating a line item with quantity q for an existing
family creates exactly one OrderItemAccessory per FamilyAccessory default of
that family, in order, with required quantity = default quantity times q and
`is_required_for_dispatch` copied; the variable placeholder is stored in the
`notes` field only when the default link is variable (notes is none
otherwise), and no per-row `is_variable` flag exists to copy. -/
theorem c6_materialize_defaults (db : DB) (orderId itemId : Nat)
    (cfg : ItemConfig) (oiaBase : Nat)
    (hfam : (db.machineFamilies.find? (fun mf => mf.id == cfg.famId)).isSome = true) :
    let links := db.familyAccessories.filter
      (fun fa => fa.machineFamilyId == cfg.famId)
    let created := materializeDefaultAccessories db itemId cfg.famId
      cfg.quantity oiaBase
    (addOrderItem db orderId itemId cfg oiaBase).orderItemAccessories =
      db.orderItemAccessories ++ created
    ∧ created.length = links.length
    ∧ ∀ i, (hi : i < links.length) → ∃ hc : i < created.length,
        (created.get ⟨i, hc⟩).orderItemId = itemId
        ∧ (created.get ⟨i, hc⟩).accessoryId = (links.get ⟨i, hi⟩).accessoryId
        ∧ (created.get ⟨i, hc⟩).quantity =
            (links.get ⟨i, hi⟩).defaultQuantity * cfg.quantity
        ∧ (created.get ⟨i, hc⟩).isRequiredForDispatch =
            (links.get ⟨i, hi⟩).isRequiredForDispatch
        ∧ (created.get ⟨i, hc⟩).notes =
            (if (links.get ⟨i, hi⟩).isVariable then
              (links.get ⟨i, hi⟩).variablePlaceholder else none) := by
  rcases Option.isSome_iff_exists.mp hfam with ⟨fam, hfam2⟩
  dsimp only
  have hmat : materializeDefaultAccessories db itemId cfg.famId cfg.quantity oiaBase =
      ((db.familyAccessories.filter (fun fa => fa.machineFamilyId == cfg.famId)).enum).map
        (fun p =>
          { id := oiaBase + p.1, orderItemId := itemId,
            accessoryId := p.2.accessoryId,
            quantity := p.2.defaultQuantity * cfg.quantity,
            unitPrice := ((findAccessory db p.2.accessoryId).map
              (fun a => a.pricePerUnit)).getD 0,
            isRequiredForDispatch := p.2.isRequiredForDispatch,
            notes := if p.2.isVariable then p.2.variablePlaceholder else none }) := by
    unfold materializeDefaultAccessories
    rw [hfam2]
  refine ⟨rfl, ?_, ?_⟩
  · rw [hmat]
    simp [List.enum_length]
  · intro i hi
    have hc : i < (materializeDefaultAccessories db itemId cfg.famId
        cfg.quantity oiaBase).length := by
      rw [hmat]; simpa [List.enum_length] using hi
    refine ⟨hc, ?_⟩
    simp [hmat, List.get_eq_getElem, List.getElem_map, List.getElem_enum]

/-- Claim C6 witness: the amended materialization property applied to dbC6
and its quantity-2 line-item configuration. -/
theorem c6_witness :
    (addOrderItem dbC6 1 1 cfgC6 1).orderItemAccessories =
      dbC6.orderItemAccessories ++
        materializeDefaultAccessories dbC6 1 cfgC6.famId cfgC6.quantity 1
    ∧ (materializeDefaultAccessories dbC6 1 cfgC6.famId cfgC6.quantity 1).length =
        (dbC6.familyAccessories.filter
          (fun fa => fa.machineFamilyId == cfgC6.famId)).length := by
  have h := c6_materialize_defaults dbC6 1 1 cfgC6 1 (by decide)
  exact ⟨h.1, h.2.1⟩

/-! Claims C5 and C9: production-step progression of a line item. -/

/-- Claim C5 counterexample: the claim states that moving a line item to a
step whose order_index is lower than its current step's fails and changes
nothing.  In dbC5, item 1's only history row is at step 3 ("Fabrication",
order_index 3); moving it to "Design Approval" (order_index 1 < 3) succeeds:
the code creates a new history row and reports success. -/
theorem c5_counterexample :
    dbC5.productionStatusHistory.map (fun h => h.stepId) = [3]
    ∧ (dbC5.productionSteps.find? (fun s => s.id == 3)).map
        ProductionProcessStep.orderIndex = some 3
    ∧ (dbC5.productionSteps.find? (fun s => s.stepName == "Design Approval")).map
        ProductionProcessStep.orderIndex = some 1
    ∧ (1 : Int) < 3
    ∧ (updateOrderItemProductionStatus dbC5 1 "Design Approval" none
        "Completed" 20).2 = .createdNew
    ∧ (updateOrderItemProductionStatus dbC5 1 "Design Approval" none
        "Completed" 20).1.productionStatusHistory.length = 2 := by decide

/-- Claim C5 (amended): moving an existing line item to any existing named
step is legal regardless of the step's order_index relative to the item's
current step; the call upserts the (item, step) history row: it appends a
new row recording the step and status when none exists, updates the existing
row's status and timestamp in place when its status differs, and changes
nothing when the row already carries that status. -/
theorem c5_production_step_upsert (db : DB) (itemId : Nat) (stepName : String)
    (uid : Option Nat) (status : String) (now : Nat)
    (step : ProductionProcessStep)
    (hitem : (db.orderItems.find? (fun oi => oi.id == itemId)).isSome = true)
    (hstep : db.productionSteps.find? (fun s => s.stepName == stepName) = some step) :
    (db.productionStatusHistory.find?
        (fun h => h.orderItemId == itemId && h.stepId == step.id) = none →
      (updateOrderItemProductionStatus db itemId stepName uid status now).2 =
        .createdNew
      ∧ ∃ e : ProductionStatusHistory,
          (updateOrderItemProductionStatus db itemId stepName uid status
            now).1.productionStatusHistory =
            db.productionStatusHistory ++ [e]
          ∧ e.orderItemId = itemId ∧ e.stepId = step.id ∧ e.status = status
          ∧ e.timestamp = now)
    ∧ (∀ ex : ProductionStatusHistory,
        db.productionStatusHistory.find?
          (fun h => h.orderItemId == itemId && h.stepId == step.id) = some ex →
        (ex.status ≠ status →
          (updateOrderItemProductionStatus db itemId stepName uid status now).2 =
            .updatedExisting
          ∧ (updateOrderItemProductionStatus db itemId stepName uid status
              now).1.productionStatusHistory.length =
              db.productionStatusHistory.length
          ∧ ∃ row : ProductionStatusHistory,
              (updateOrderItemProductionStatus db itemId stepName uid status
                now).1.productionStatusHistory.find?
                (fun h => h.orderItemId == itemId && h.stepId == step.id) =
                some row
              ∧ row.orderItemId = itemId ∧ row.stepId = step.id
              ∧ row.status = status ∧ row.timestamp = now)
        ∧ (ex.status = status →
          updateOrderItemProductionStatus db itemId stepName uid status now =
            (db, .alreadySet))) := by
  rcases Option.isSome_iff_exists.mp hitem with ⟨oi, hoi⟩
  constructor
  · intro hnone
    unfold updateOrderItemProductionStatus
    rw [hoi]
    dsimp only
    rw [hstep]
    dsimp only
    rw [hnone]
    dsimp only
    exact ⟨rfl, _, rfl, rfl, rfl, rfl, rfl⟩
  · intro ex hex
    have hkey := List.find?_some hex
    have hkey1 : ex.orderItemId = itemId := by
      have := (Bool.and_eq_true _ _).mp hkey
      simpa using this.1
    have hkey2 : ex.stepId = step.id := by
      have := (Bool.and_eq_true _ _).mp hkey
      simpa using this.2
    constructor
    · intro hne
      unfold updateOrderItemProductionStatus
      rw [hoi]
      dsimp only
      rw [hstep]
      dsimp only
      rw [hex]
      dsimp only
      rw [if_pos hne]
      dsimp only
      refine ⟨rfl, updateFirst_length _ _ _, ?_⟩
      rw [find?_updateFirst_self
        (fun h => h.orderItemId == itemId && h.stepId == step.id)
        (fun h =>
          { h with
            status := status, timestamp := now,
            notes := "Production status for " ++ stepName ++ " updated to " ++ status,
            completedByUserId := uid })
        db.productionStatusHistory (fun a => rfl), hex]
      exact ⟨_, rfl, hkey1, hkey2, rfl, rfl⟩
    · intro heq
      unfold updateOrderItemProductionStatus
      rw [hoi]
      dsimp only
      rw [hstep]
      dsimp only
      rw [hex]
      dsimp only
      rw [if_neg (by simpa using heq)]

/-- Claim C5 witness: the amended upsert property applied to dbC5 and the
earlier step "Design Approval": a new history row for (item 1, step 1) is
appended. -/
theorem c5_witness :
    (updateOrderItemProductionStatus dbC5 1 "Design Approval" none
      "Completed" 20).2 = .createdNew
    ∧ ∃ e : ProductionStatusHistory,
        (updateOrderItemProductionStatus dbC5 1 "Design Approval" none
          "Completed" 20).1.productionStatusHistory =
          dbC5.productionStatusHistory ++ [e]
        ∧ e.orderItemId = 1 ∧ e.stepId = 1 ∧ e.status = "Completed"
        ∧ e.timestamp = 20 := by
  exact (c5_production_step_upsert dbC5 1 "Design Approval" none "Completed" 20
    { id := 1, stepName := "Design Approval", orderIndex := 1,
      isDispatchStep := false }
    (by decide) (by decide)).1 (by decide)

/-- Claim C9: at most one ProductionStatusHistory row exists per
(line item, step) pair and the update preserves this: recording the same
step again with a different status updates the existing row in place
(history length unchanged), and recording it with the same status changes
nothing at all. -/
theorem c9_one_history_row_per_step (db : DB) (itemId : Nat) (stepName : String)
    (uid : Option Nat) (status : String) (now : Nat)
    (h : uniqProdHistory db) :
    uniqProdHistory
      (updateOrderItemProductionStatus db itemId stepName uid status now).1
    ∧ (∀ (oi : OrderItem) (step : ProductionProcessStep)
        (ex : ProductionStatusHistory),
        db.orderItems.find? (fun x => x.id == itemId) = some oi →
        db.productionSteps.find? (fun s => s.stepName == stepName) = some step →
        db.productionStatusHistory.find?
          (fun r => r.orderItemId == itemId && r.stepId == step.id) = some ex →
        (ex.status = status →
          updateOrderItemProductionStatus db itemId stepName uid status now =
            (db, .alreadySet))
        ∧ (ex.status ≠ status →
          (updateOrderItemProductionStatus db itemId stepName uid status
            now).1.productionStatusHistory.length =
            db.productionStatusHistory.length
          ∧ (updateOrderItemProductionStatus db itemId stepName uid status
              now).2 = .updatedExisting)) := by
  constructor
  · unfold updateOrderItemProductionStatus
    cases hoi : db.orderItems.find? (fun oi => oi.id == itemId) with
    | none => exact h
    | some oi =>
      dsimp only
      cases hstep : db.productionSteps.find? (fun s => s.stepName == stepName) with
      | none => exact h
      | some step =>
        dsimp only
        cases hex : db.productionStatusHistory.find?
            (fun r => r.orderItemId == itemId && r.stepId == step.id) with
        | some ex =>
          dsimp only
          by_cases hne : ex.status ≠ status
          · rw [if_pos hne]
            exact pairwise_updateFirst
              (fun r => r.orderItemId == itemId && r.stepId == step.id)
              (fun r =>
                { r with
                  status := status, timestamp := now,
                  notes := "Production status for " ++ stepName ++ " updated to " ++ status,
                  completedByUserId := uid })
              (fun a b hab => hab) (fun a b hab => hab) _ h
          · rw [if_neg hne]
            exact h
        | none =>
          dsimp only
          refine List.pairwise_append.mpr ⟨h, List.pairwise_singleton _ _, ?_⟩
          intro a ha b hb
          have hb1 : b = ({ orderItemId := itemId, stepId := step.id,
                            status := status, timestamp := now,
                            notes := "Production status set to " ++ stepName,
                            completedByUserId := uid } :
              ProductionStatusHistory) := by
            simpa using hb
          subst hb1
          have hna := List.find?_eq_none.mp hex a ha
          by_cases h1 : a.orderItemId = itemId
          · right
            intro h2
            exact hna (by simp [h1, h2])
          · exact Or.inl h1
  · intro oi step ex hoi hstep hex
    constructor
    · intro heq
      unfold updateOrderItemProductionStatus
      rw [hoi]
      dsimp only
      rw [hstep]
      dsimp only
      rw [hex]
      dsimp only
      rw [if_neg (by simpa using heq)]
    · intro hne
      unfold updateOrderItemProductionStatus
      rw [hoi]
      dsimp only
      rw [hstep]
      dsimp only
      rw [hex]
      dsimp only
      rw [if_pos hne]
      exact ⟨updateFirst_length _ _ _, rfl⟩

/-- Claim C9 witness: on dbC5 (whose history satisfies the uniqueness
invariant), re-recording step "Fabrication" with the new status "On Hold"
keeps the invariant, keeps the history length at 1, and reports an in-place
update. -/
theorem c9_witness :
    uniqProdHistory
      (updateOrderItemProductionStatus dbC5 1 "Fabrication" none "On Hold" 30).1
    ∧ (updateOrderItemProductionStatus dbC5 1 "Fabrication" none "On Hold"
        30).1.productionStatusHistory.length =
        dbC5.productionStatusHistory.length
    ∧ (updateOrderItemProductionStatus dbC5 1 "Fabrication" none "On Hold"
        30).2 = .updatedExisting := by
  have h := c9_one_history_row_per_step dbC5 1 "Fabrication" none "On Hold" 30
    (by decide)
  have h2 := (h.2
    { id := 1, orderId := 1, machineFamilyId := 1, itemDescription := none,
      quantity := 1, unitPrice := 0, totalPrice := 0 }
    { id := 3, stepName := "Fabrication", orderIndex := 3, isDispatchStep := false }
    { orderItemId := 1, stepId := 3, status := "Completed", timestamp := 10,
      notes := "", completedByUserId := none }
    (by decide) (by decide) (by decide)).2 (by decide)
  exact ⟨h.1, h2.1, h2.2⟩

/-! Claims C1 and C2: the order status machine and its dispatch gate. -/

/-- Lemma: when the order exists and its status differs from the target, the
update commits: result `updated`, status set, one history row appended. -/
theorem updateOverallOrderStatus_updates (db : DB) (orderId : Nat)
    (newStatus : String) (uid : Option Nat) (now : Nat) (order : Order)
    (ho : findOrder db orderId = some order) (hne : order.status ≠ newStatus) :
    (updateOverallOrderStatus db orderId newStatus uid now).2 = .updated
    ∧ (findOrder (updateOverallOrderStatus db orderId newStatus uid now).1
        orderId).map Order.status = some newStatus
    ∧ (updateOverallOrderStatus db orderId newStatus uid now).1.orderStatusHistory =
        db.orderStatusHistory ++
          [{ orderId := orderId, status := newStatus, timestamp := now,
             notes := "Status updated from " ++ order.status ++ " to " ++ newStatus,
             userId := uid }] := by
  unfold updateOverallOrderStatus
  rw [ho]
  dsimp only
  rw [if_pos hne]
  refine ⟨rfl, ?_, rfl⟩
  unfold findOrder
  dsimp only
  rw [find?_updateFirst_self (fun o => o.id == orderId)
    (fun o => { o with status := newStatus }) db.orders (fun a => rfl)]
  unfold findOrder at ho
  rw [ho]
  rfl

/-- Lemma: the gate scan succeeds exactly when some order item of the order
belonging to the given family carries a dispatch-required accessory whose
notes is not "Attached". -/
theorem firstOffending_isSome_iff (db : DB) (orderId famId : Nat) :
    (firstOffendingDocAccessory db orderId famId).isSome = true ↔
      ∃ oi ∈ db.orderItems, (oi.orderId = orderId ∧ oi.machineFamilyId = famId)
        ∧ ∃ oia ∈ db.orderItemAccessories, oia.orderItemId = oi.id
          ∧ oia.isRequiredForDispatch = true ∧ oia.notes ≠ some "Attached" := by
  unfold firstOffendingDocAccessory
  rw [findSome?_isSome_iff]
  constructor
  · rintro ⟨oi, hoi, hsome⟩
    obtain ⟨hmem, hcond⟩ := List.mem_filter.mp hoi
    have hcond2 : oi.orderId = orderId ∧ oi.machineFamilyId = famId := by
      simpa using hcond
    obtain ⟨oia, hoia, hpred⟩ := List.find?_isSome.mp hsome
    obtain ⟨hmem2, hkey⟩ := List.mem_filter.mp hoia
    refine ⟨oi, hmem, hcond2, oia, hmem2, by simpa using hkey, ?_, ?_⟩
    · have := (Bool.and_eq_true _ _).mp hpred
      exact this.1
    · have := (Bool.and_eq_true _ _).mp hpred
      simpa using this.2
  · rintro ⟨oi, hmem, ⟨ho1, ho2⟩, oia, hmem2, hk, h1, h2⟩
    refine ⟨oi, List.mem_filter.mpr ⟨hmem, by simp [ho1, ho2]⟩, ?_⟩
    refine List.find?_isSome.mpr ⟨oia, List.mem_filter.mpr ⟨hmem2, by simp [hk]⟩, ?_⟩
    simp [h1, h2]

/-- Lemma: a scan hit is a genuine offender: it is a stored accessory row
that is dispatch-required and not marked "Attached". -/
theorem firstOffending_spec (db : DB) (orderId famId : Nat)
    (oia : OrderItemAccessory)
    (h : firstOffendingDocAccessory db orderId famId = some oia) :
    oia ∈ db.orderItemAccessories ∧ oia.isRequiredForDispatch = true
    ∧ oia.notes ≠ some "Attached" := by
  unfold firstOffendingDocAccessory at h
  obtain ⟨oi, hoi, hfind⟩ := List.exists_of_findSome?_eq_some h
  have hmem := List.mem_of_find?_eq_some hfind
  have hpred := List.find?_some hfind
  obtain ⟨hmem2, _⟩ := List.mem_filter.mp hmem
  have hand := (Bool.and_eq_true _ _).mp hpred
  exact ⟨hmem2, hand.1, by simpa using hand.2⟩

/-- Claim C1 counterexample: the claim quantifies over every line item of
the order, but the code checks only line items of the "Documents Bundle"
family.  In dbC1 the order's single line item belongs to the UTM family and
carries a dispatch-required accessory that is not "Attached"; the claim says
the transition to "Dispatched" must fail with DispatchBlocked and leave the
status unchanged, yet the code lets it through and the status becomes
"Dispatched". -/
theorem c1_counterexample :
    (∃ oi ∈ dbC1.orderItems, oi.orderId = 1 ∧
      ∃ oia ∈ dbC1.orderItemAccessories, oia.orderItemId = oi.id ∧
        oia.isRequiredForDispatch = true ∧ oia.notes ≠ some "Attached")
    ∧ (attemptUpdateOrderStatus dbC1 1 "Dispatched" (some 1) 5).2 =
        .proceeded .updated
    ∧ (findOrder (attemptUpdateOrderStatus dbC1 1 "Dispatched" (some 1) 5).1 1).map
        Order.status = some "Dispatched" := by decide

/-- Claim C1 (amended): for a transition into "Ready for Dispatch" or
"Dispatched" on a database whose catalog contains the "Documents Bundle"
family, the transition is blocked (naming the first offending accessory and
leaving the database untouched) exactly when some line item OF THAT FAMILY
in the order carries a dispatch-required accessory whose notes is not
"Attached"; any reported accessory is such an offender; and when no such
offender exists and the order's status differs from the target, the
transition succeeds and sets the status. -/
theorem c1_dispatch_gate (db : DB) (orderId : Nat) (target : String)
    (uid : Option Nat) (now : Nat) (fam : MachineFamily)
    (htarget : isDispatchClass target = true)
    (hfam : findDocumentsFamily db = some fam) :
    ((∃ oi ∈ db.orderItems, (oi.orderId = orderId ∧ oi.machineFamilyId = fam.id)
        ∧ ∃ oia ∈ db.orderItemAccessories, oia.orderItemId = oi.id
          ∧ oia.isRequiredForDispatch = true ∧ oia.notes ≠ some "Attached")
      ↔ ∃ a, (attemptUpdateOrderStatus db orderId target uid now).2 =
          .dispatchBlocked a)
    ∧ (∀ a, (attemptUpdateOrderStatus db orderId target uid now).2 =
        .dispatchBlocked a →
        (attemptUpdateOrderStatus db orderId target uid now).1 = db
        ∧ ∃ oia ∈ db.orderItemAccessories, oia.id = a
            ∧ oia.isRequiredForDispatch = true ∧ oia.notes ≠ some "Attached")
    ∧ (∀ order : Order, findOrder db orderId = some order →
        order.status ≠ target →
        (firstOffendingDocAccessory db orderId fam.id = none) →
        (attemptUpdateOrderStatus db orderId target uid now).2 =
          .proceeded .updated
        ∧ (findOrder (attemptUpdateOrderStatus db orderId target uid now).1
            orderId).map Order.status = some target) := by
  have hres : attemptUpdateOrderStatus db orderId target uid now =
      (match firstOffendingDocAccessory db orderId fam.id with
       | some oia => (db, .dispatchBlocked oia.id)
       | none => ((updateOverallOrderStatus db orderId target uid now).1,
           .proceeded (updateOverallOrderStatus db orderId target uid now).2)) := by
    unfold attemptUpdateOrderStatus
    rw [htarget, hfam]
    rfl
  cases hoff : firstOffendingDocAccessory db orderId fam.id with
  | some oia =>
    rw [hoff] at hres
    refine ⟨?_, ?_, ?_⟩
    · constructor
      · intro _
        exact ⟨oia.id, by rw [hres]⟩
      · intro _
        exact (firstOffending_isSome_iff db orderId fam.id).mp (by rw [hoff]; rfl)
    · intro a ha
      rw [hres] at ha
      have haid : oia.id = a := by
        have ha2 : GateResult.dispatchBlocked oia.id =
            GateResult.dispatchBlocked a := ha
        injection ha2
      obtain ⟨hmem, h1, h2⟩ := firstOffending_spec db orderId fam.id oia hoff
      exact ⟨by rw [hres], oia, hmem, haid, h1, h2⟩
    · intro order ho hne hnone
      exact Option.noConfusion hnone
  | none =>
    rw [hoff] at hres
    refine ⟨?_, ?_, ?_⟩
    · constructor
      · intro hex
        have := (firstOffending_isSome_iff db orderId fam.id).mpr hex
        rw [hoff] at this
        exact absurd this (by simp)
      · rintro ⟨a, ha⟩
        rw [hres] at ha
        exact absurd ha (by simp)
    · intro a ha
      rw [hres] at ha
      exact absurd ha (by simp)
    · intro order ho hne _
      obtain ⟨h1, h2, _⟩ :=
        updateOverallOrderStatus_updates db orderId target uid now order ho hne
      rw [hres]
      exact ⟨by rw [h1], h2⟩

/-- Claim C1 witness: on dbC1b (whose single line item belongs to the
Documents Bundle family and has an un-attached required document), the
transition to "Dispatched" is blocked and the database is unchanged. -/
theorem c1_witness :
    (∃ a, (attemptUpdateOrderStatus dbC1b 1 "Dispatched" (some 1) 5).2 =
      .dispatchBlocked a)
    ∧ (attemptUpdateOrderStatus dbC1b 1 "Dispatched" (some 1) 5).1 = dbC1b := by
  have h := c1_dispatch_gate dbC1b 1 "Dispatched" (some 1) 5
    { id := 4, name := "Documents Bundle", isProduct := false }
    (by decide) (by decide)
  have hex := h.1.mp (by decide)
  obtain ⟨a, ha⟩ := hex
  exact ⟨⟨a, ha⟩, (h.2.1 a ha).1⟩

/-- Claim C2 (code behavior at the failing input): `update_overall_order_status`
performs no transition validation: from "Dispatched" the backward target
"Draft" is accepted, the status is overwritten and a history row is
appended; the terminal state "Completed" can likewise be left for
"In Production".  The claim requires both calls to fail with
InvalidTransition and leave the orders unchanged. -/
theorem c2_backward_transition_allowed :
    (updateOverallOrderStatus dbC2 1 "Draft" (some 1) 5).2 = .updated
    ∧ (findOrder (updateOverallOrderStatus dbC2 1 "Draft" (some 1) 5).1 1).map
        Order.status = some "Draft"
    ∧ (updateOverallOrderStatus dbC2 1 "Draft" (some 1) 5).1.orderStatusHistory.length
        = dbC2.orderStatusHistory.length + 1
    ∧ (updateOverallOrderStatus dbC2 2 "In Production" (some 1) 5).2 = .updated := by
  decide

end Eqvimech
